import Mathlib

/-!
Shallow embedding of the browser.html chrome: the `actions` module
(session persistence, URL routing, small field-setting actions) and the
state-update layer of the `Browser` component (tab opening, closing,
switching, navigation).  Definitions are translated from the JavaScript
sources; library functions of the repository that are not among the
sources (`util/url`, `web-viewer/actions.open`, the `deck/actions`
helpers) are modelled explicitly and marked as such.
-/

namespace Browser

/-! ## URL routing (`actions.js`: `makeSearchURL`, `readInputURL`) -/

/-- Modelled from the spec: the `util/url` module (`isNotURL`, `hasScheme`)
and the host function `encodeURIComponent` are not among the sources; they
are kept abstract as a record of string functions. -/
structure UrlLib where
  isNotURL : String → Bool
  hasScheme : String → Bool
  encodeURIComponent : String → String

/-- `makeSearchURL` from `actions.js`. -/
def makeSearchURL (lib : UrlLib) (input : String) : String :=
  "https://duckduckgo.com/?q=" ++ lib.encodeURIComponent input

/-- `readInputURL` from `actions.js`. -/
def readInputURL (lib : UrlLib) (input : String) : String :=
  if lib.isNotURL input then makeSearchURL lib input
  else if !(lib.hasScheme input) then "http://" ++ input
  else input

/-! ## Web viewers -/

/-- A web viewer record, with the fields the embedded actions touch. -/
structure WebViewer where
  id : String := ""
  uri : Option String := none
  isPinned : Bool := false
  isSelected : Bool := false
  isActive : Bool := false
  isFocused : Bool := false
  userInput : String := ""
deriving Repr, DecidableEq

/-- Options accepted by `open` of `web-viewer/actions`: each field may be
given or left to its default. -/
structure OpenOptions where
  id : Option String := none
  uri : Option String := none
  isPinned : Option Bool := none
  isSelected : Option Bool := none
  isActive : Option Bool := none
  isFocused : Option Bool := none
deriving Repr, DecidableEq

/-- Modelled from the spec: `open` of `web-viewer/actions` is not among the
sources; modelled as building a viewer record from the given options, with
record defaults for the options not given.  Named `openViewer` because
`open` is a Lean keyword. -/
def openViewer (o : OpenOptions) : WebViewer :=
  { id := o.id.getD ""
    uri := o.uri
    isPinned := o.isPinned.getD false
    isSelected := o.isSelected.getD false
    isActive := o.isActive.getD false
    isFocused := o.isFocused.getD false
    userInput := "" }

/-- `isPinned` of `deck/actions`: reads the `isPinned` field. -/
def isPinnedV (v : WebViewer) : Bool := v.isPinned

/-- `isntPinned` of `deck/actions`: the negation of `isPinned`. -/
def isntPinned (v : WebViewer) : Bool := !v.isPinned

/-! ## Session state (`actions.js`) -/

/-- The `{all: true}` selection record set by the `select` action. -/
structure Selection where
  all : Bool
deriving Repr, DecidableEq

/-- The awesomebar input field state. -/
structure InputState where
  value : String := ""
  isFocused : Bool := false
  selection : Option Selection := none
deriving Repr, DecidableEq

/-- The tab strip state. -/
structure TabStrip where
  isActive : Bool := false
deriving Repr, DecidableEq

/-- The `rfa` (request-animation-frame) record. -/
structure Rfa where
  id : Int := -1
deriving Repr, DecidableEq

/-- The awesomebar suggestions record. -/
structure Suggestions where
  selectedIndex : Int := -1
  list : List String := []
deriving Repr, DecidableEq

/-- One hard-coded dashboard tile. -/
structure DashboardItem where
  image : String
  uri : String
  title : String
deriving Repr, DecidableEq

/-- Modelled from the spec: `initDashboard` of `dashboard/actions` is not
among the sources; the dashboard is modelled as its list of tiles. -/
structure Dashboard where
  items : List DashboardItem := []
deriving Repr, DecidableEq

/-- The hard-coded `dashboardItems` of `actions.js`. -/
def dashboardItems : List DashboardItem :=
  [⟨"tiles/facebook.com.png", "https://facebook.com", "facebook.com"⟩,
   ⟨"tiles/youtube.com.png", "https://youtube.com", "youtube.com"⟩,
   ⟨"tiles/amazon.com.png", "https://amazon.com", "amazon.com"⟩,
   ⟨"tiles/wikipedia.org.png", "https://wikipedia.org", "wikipedia.org"⟩,
   ⟨"tiles/twitter.com.png", "https://twitter.com", "twitter.com"⟩,
   ⟨"tiles/mail.google.com.png", "https://mail.google.com", "mail.google.com"⟩,
   ⟨"tiles/nytimes.com.png", "https://nytimes.com", "nytimes.com"⟩,
   ⟨"tiles/qz.com.png", "http://qz.com", "qz.com"⟩,
   ⟨"tiles/github.com.png", "https://github.com", "github.com"⟩,
   ⟨"tiles/dropbox.com.png", "https://dropbox.com", "dropbox.com"⟩,
   ⟨"tiles/linkedin.com.png", "https://linkedin.com", "linkedin.com"⟩,
   ⟨"tiles/yahoo.com.png", "https://yahoo.com", "yahoo.com"⟩]

/-- The root application state tree, as persisted by the session actions.
`appUpdateAvailable` is not present in a blank session (it is `undefined`,
which reads as falsy); it is modelled as a `Bool` defaulting to `false`. -/
structure Session where
  isDocumentFocused : Bool := false
  input : InputState := {}
  tabStrip : TabStrip := {}
  dashboard : Dashboard := {}
  rfa : Rfa := {}
  suggestions : Suggestions := {}
  webViewers : List WebViewer := []
  appUpdateAvailable : Bool := false
deriving Repr, DecidableEq

/-- `version` from `actions.js`. -/
def version : String := "0.0.3"

/-- A value held by `localStorage` under the session key.  JSON
serialization is modelled structurally: `stringify` of a session is the
constructor `json`, `parse` succeeds exactly on `json`; a missing key
(`absent`: indexing yields `undefined`, so `JSON.parse` throws) and a
present but malformed string (`invalid`: `JSON.parse` throws) are the two
failure shapes `readSession` catches. -/
inductive StoredVal where
  | absent
  | invalid
  | json (s : Session)
deriving Repr, DecidableEq

/-- The browser's `localStorage`, keyed by string. -/
def Store : Type := String → StoredVal

/-- `resetSession` from `actions.js`: the blank session.  `document.hasFocus()`
is a host call, passed in as `docHasFocus`. -/
def resetSession (docHasFocus : Bool) : Session :=
  { isDocumentFocused := docHasFocus
    input := { value := "", isFocused := false }
    tabStrip := { isActive := false }
    dashboard := { items := dashboardItems }
    rfa := { id := -1 }
    suggestions := { selectedIndex := -1, list := [] }
    webViewers := [openViewer { id := some "about:blank"
                                isPinned := some true
                                isSelected := some true
                                isActive := some true
                                isFocused := some false }] }

/-- `readSession` from `actions.js`: parse the stored value under the
version key, returning `none` (JS `null`) when the `try` block throws. -/
def readSession (store : Store) : Option Session :=
  match store ("session@" ++ version) with
  | .json s => some s
  | .absent => none
  | .invalid => none

/-- `writeSession` from `actions.js`: serialize the session with
`appUpdateAvailable` forced to `false` and `rfa.id` forced to `-1`, and
store it under the version key. -/
def writeSession (session : Session) (store : Store) : Store :=
  fun k =>
    if k = "session@" ++ version then
      .json { session with appUpdateAvailable := false, rfa := { id := -1 } }
    else store k

/-- `src/browser/index.js`: `render(Browser, readSession() || resetSession(), …)`;
a non-null immutable map is truthy, `null` is falsy. -/
def startupState (store : Store) (docHasFocus : Bool) : Session :=
  match readSession store with
  | some s => s
  | none => resetSession docHasFocus

/-! ## Deck operations (`browser.js` and `deck/actions`) -/

/-- Modelled from the spec: `insertBefore` of `deck/actions` is not among
the sources; modelled by its name and use — insert `item` immediately
before the first element satisfying `p`, at the end when none does. -/
def insertBefore (items : List WebViewer) (item : WebViewer) (p : WebViewer → Bool) :
    List WebViewer :=
  match items with
  | [] => [item]
  | x :: xs => if p x then item :: x :: xs else x :: insertBefore xs item p

/-- The viewer passed to `open` inside `openTab` of `browser.js`. -/
def newTabViewer (uri : String) : WebViewer :=
  openViewer { uri := some uri
               isSelected := some true
               isFocused := some true
               isActive := some true }

/-- `openTab` from `browser.js`. -/
def openTab (uri : String) (items : List WebViewer) : List WebViewer :=
  insertBefore items (newTabViewer uri) isntPinned

/-- A cursor update at path `['webViewers', i]`: apply `f` to the element
at index `i` of the current deck, when present. -/
def modifyAt (items : List WebViewer) (i : Nat) (f : WebViewer → WebViewer) :
    List WebViewer :=
  match items, i with
  | [], _ => []
  | x :: xs, 0 => f x :: xs
  | x :: xs, Nat.succ n => x :: modifyAt xs n f

/-- `loadURI` from `browser.js`: merge `{uri, isFocused: true}` into the
viewer. -/
def loadURI (webViewer : WebViewer) (uri : String) : WebViewer :=
  { webViewer with uri := some uri, isFocused := true }

/-- `navigateTo` from `browser.js`, acting on the deck together with the
index of the active viewer (the cursor path `['webViewers', activeIndex]`);
cursor operations are modelled as path updates on the current state. -/
def navigateTo (lib : UrlLib) (deck : List WebViewer) (activeIdx : Nat)
    (location : String) : List WebViewer :=
  let uri := readInputURL lib location
  match deck[activeIdx]? with
  | none => deck
  | some v =>
    if isPinnedV v then
      modifyAt (openTab uri deck) activeIdx (fun w => { w with userInput := "" })
    else
      modifyAt deck activeIdx (fun w => { w with uri := some uri, isFocused := true })

/-- The Awesomebar `onOpen` handler of `browser.js`, as written: when the
active viewer is pinned the deck is updated with `openTab(uri)`; otherwise
the handler evaluates `loadURI(activeWebViewerCursor)` — a curried partial
application that is never applied to `uri` — and discards the result, so
the state is left unchanged. -/
def awesomebarOnOpen (deck : List WebViewer) (activeIdx : Nat) (uri : String) :
    List WebViewer :=
  match deck[activeIdx]? with
  | none => deck
  | some v => if isPinnedV v then openTab uri deck else deck

/-- Modelled from the spec: `remove` of `deck/actions` is not among the
sources; modelled as removing the first element satisfying `p`. -/
def remove (items : List WebViewer) (p : WebViewer → Bool) : List WebViewer :=
  List.eraseP p items

/-- `items.set(0, v)` on an immutable list: replace the element at index 0;
on an empty list, setting index 0 yields a one-element list. -/
def setAt0 (items : List WebViewer) (v : WebViewer) : List WebViewer :=
  match items with
  | [] => [v]
  | _ :: xs => v :: xs

/-- The fresh blank viewer `close` substitutes: `open({isSelected: true,
isActive: true})`. -/
def freshViewer : WebViewer :=
  openViewer { isSelected := some true, isActive := some true }

/-- `close` from `browser.js`: remove the matching viewer when more than
one remains, otherwise replace slot 0 with a fresh selected active viewer. -/
def close (p : WebViewer → Bool) (items : List WebViewer) : List WebViewer :=
  if items.length > 1 then remove items p
  else setAt0 items freshViewer

/-- Modelled from the spec: `select` of `deck/actions` is not among the
sources; modelled as marking the given item (identified by `id`) selected
and deselecting the rest. -/
def selectItem (items : List WebViewer) (t : WebViewer) : List WebViewer :=
  items.map (fun v => { v with isSelected := v.id == t.id })

/-- Modelled from the spec: `activate` of `deck/actions` is not among the
sources; modelled as making the selected item the active one. -/
def activate (items : List WebViewer) : List WebViewer :=
  items.map (fun v => { v with isActive := v.isSelected })

/-- Modelled from the spec: `arrange` of `deck/actions` is not among the
sources; modelled as the deck in display order, here the deck order
itself. -/
def arrange (items : List WebViewer) : List WebViewer := items

/-- `switchTab` from `browser.js`: `to ? activate(select(items, to)) : items`;
an absent item (`undefined`, falsy) is `none`. -/
def switchTab (items : List WebViewer) (target : Option WebViewer) : List WebViewer :=
  match target with
  | some t => activate (selectItem items t)
  | none => items

/-- `switchTab.toIndex` from `browser.js`. -/
def switchTabToIndex (index : Nat) (items : List WebViewer) : List WebViewer :=
  switchTab items (arrange items)[index]?

/-- The deck invariant the application maintains: every pinned viewer
precedes every non-pinned one (the pinned dashboard viewer is created
first, and `openTab` inserts new viewers before the first non-pinned
item). -/
def pinnedFirst (items : List WebViewer) : Bool :=
  (items.dropWhile (fun v => v.isPinned)).all (fun v => !v.isPinned)

/-- The index of the first non-pinned item of the deck (its length when
every item is pinned). -/
def firstUnpinnedIdx (items : List WebViewer) : Nat :=
  (items.takeWhile (fun v => v.isPinned)).length

/-! ## Field-setting actions (`actions.js` exports) -/

/-- `focus` from `actions.js`: set `isFocused` to `true`. -/
def focus (focusable : InputState) : InputState :=
  { focusable with isFocused := true }

/-- `blur` from `actions.js`: set `isFocused` to `false`. -/
def blur (focusable : InputState) : InputState :=
  { focusable with isFocused := false }

/-- `select` from `actions.js`: set `selection` to `{all: true}`. -/
def select (editable : InputState) : InputState :=
  { editable with selection := some { all := true } }

/-- `showTabStrip` from `actions.js`: set `isActive` to `true`. -/
def showTabStrip (tabStripState : TabStrip) : TabStrip :=
  { tabStripState with isActive := true }

/-- `hideTabStrip` from `actions.js`: set `isActive` to `false`. -/
def hideTabStrip (tabStripState : TabStrip) : TabStrip :=
  { tabStripState with isActive := false }

end Browser

/-! ## Claim theorems -/

/-- Claim C1: for every input string, `readInputURL` returns
`https://duckduckgo.com/?q=` followed by the URI-component-encoded input
when the input is not a URL; the input prefixed with `http://` when the
input is a URL lacking a scheme; and the input unchanged when it is a URL
with a scheme. -/
theorem readInputURL_cases (lib : Browser.UrlLib) (input : String) :
    (lib.isNotURL input = true →
      Browser.readInputURL lib input =
        "https://duckduckgo.com/?q=" ++ lib.encodeURIComponent input) ∧
    (lib.isNotURL input = false → lib.hasScheme input = false →
      Browser.readInputURL lib input = "http://" ++ input) ∧
    (lib.isNotURL input = false → lib.hasScheme input = true →
      Browser.readInputURL lib input = input) := by
  refine ⟨fun h1 => ?_, fun h1 h2 => ?_, fun h1 h2 => ?_⟩ <;>
    simp [Browser.readInputURL, Browser.makeSearchURL, h1, *]

/-- Witness for C1 at a concrete url library and input. -/
theorem readInputURL_cases_witness :
    Browser.readInputURL ⟨fun s => s = "kit ten", fun s => s.startsWith "http", fun s => s⟩
        "kit ten" = "https://duckduckgo.com/?q=" ++ "kit ten" :=
  (readInputURL_cases ⟨fun s => s = "kit ten", fun s => s.startsWith "http", fun s => s⟩
    "kit ten").1 (by decide)

/-- Claim C3: writing a session and then reading returns the session with
`appUpdateAvailable` set to `false` and `rfa.id` set to `-1`, through the
storage key `session@0.0.3`. -/
theorem writeSession_readSession_roundtrip (s : Browser.Session) (store : Browser.Store) :
    Browser.readSession (Browser.writeSession s store) =
      some { s with appUpdateAvailable := false, rfa := { id := -1 } } := by
  simp [Browser.readSession, Browser.writeSession]

/-- Claim C4: `writeSession` stores, under the version key, a serialization
in which `appUpdateAvailable` is `false` and `rfa.id` is `-1` whatever
their values in the session, and every other field keeps the value it has
in the session; no other key is touched. -/
theorem writeSession_stored_fields (s : Browser.Session) (store : Browser.Store) :
    (∃ t : Browser.Session,
      Browser.writeSession s store ("session@" ++ Browser.version) = .json t ∧
      t.appUpdateAvailable = false ∧
      t.rfa.id = -1 ∧
      t.isDocumentFocused = s.isDocumentFocused ∧
      t.input = s.input ∧
      t.tabStrip = s.tabStrip ∧
      t.dashboard = s.dashboard ∧
      t.suggestions = s.suggestions ∧
      t.webViewers = s.webViewers) ∧
    (∀ k, k ≠ "session@" ++ Browser.version →
      Browser.writeSession s store k = store k) := by
  refine ⟨⟨{ s with appUpdateAvailable := false, rfa := { id := -1 } }, ?_⟩, ?_⟩
  · simp [Browser.writeSession]
  · intro k hk
    simp [Browser.writeSession, hk]

/-- Witness for C4 at a concrete session and store. -/
theorem writeSession_stored_fields_witness :
    Browser.writeSession { appUpdateAvailable := true, rfa := { id := 7 } }
        (fun _ => .absent) "other" = .absent :=
  (writeSession_stored_fields { appUpdateAvailable := true, rfa := { id := 7 } }
    (fun _ => .absent)).2 "other" (by decide)

/-- Claim C5: `readSession` returns the session parsed from the stored
value under the version key when that value exists and parses as JSON, and
returns `null` — modelled as `none`, never an exception — when the stored
value is absent or is not valid JSON. -/
theorem readSession_cases (store : Browser.Store) :
    (∀ s : Browser.Session,
      store ("session@" ++ Browser.version) = .json s →
        Browser.readSession store = some s) ∧
    (store ("session@" ++ Browser.version) = .absent →
      Browser.readSession store = none) ∧
    (store ("session@" ++ Browser.version) = .invalid →
      Browser.readSession store = none) := by
  refine ⟨fun s h => ?_, fun h => ?_, fun h => ?_⟩ <;>
    simp [Browser.readSession, h]

/-- Witness for C5 on concrete stores realising each of the three cases. -/
theorem readSession_cases_witness :
    Browser.readSession (fun _ => .json {}) = some {} ∧
    Browser.readSession (fun _ => .absent) = none ∧
    Browser.readSession (fun _ => .invalid) = none :=
  ⟨(readSession_cases (fun _ => .json {})).1 {} rfl,
   (readSession_cases (fun _ => .absent)).2.1 rfl,
   (readSession_cases (fun _ => .invalid)).2.2 rfl⟩

/-- Claim C6: at startup the browser renders the stored session when
`readSession` is non-null and otherwise the blank session of
`resetSession`, which has exactly one web viewer — pinned, selected,
active, not focused — an input with empty value and `isFocused` false, a
tab strip with `isActive` false, and suggestions with `selectedIndex` `-1`
and the empty list. -/
theorem startupState_spec (store : Browser.Store) (docHasFocus : Bool) :
    (∀ s, Browser.readSession store = some s →
      Browser.startupState store docHasFocus = s) ∧
    (Browser.readSession store = none →
      Browser.startupState store docHasFocus = Browser.resetSession docHasFocus) ∧
    (∃ v : Browser.WebViewer,
      (Browser.resetSession docHasFocus).webViewers = [v] ∧
      v.isPinned = true ∧ v.isSelected = true ∧ v.isActive = true ∧
      v.isFocused = false) ∧
    (Browser.resetSession docHasFocus).input.value = "" ∧
    (Browser.resetSession docHasFocus).input.isFocused = false ∧
    (Browser.resetSession docHasFocus).tabStrip.isActive = false ∧
    (Browser.resetSession docHasFocus).suggestions.selectedIndex = -1 ∧
    (Browser.resetSession docHasFocus).suggestions.list = [] := by
  refine ⟨fun s h => ?_, fun h => ?_,
    ⟨⟨"about:blank", none, true, true, true, false, ""⟩,
      rfl, rfl, rfl, rfl, rfl⟩, rfl, rfl, rfl, rfl, rfl⟩ <;>
    simp [Browser.startupState, *]

/-- Witness for C6 on a concrete empty store. -/
theorem startupState_spec_witness :
    Browser.startupState (fun _ => .absent) true = Browser.resetSession true :=
  (startupState_spec (fun _ => .absent) true).2.1 rfl

/-- Claim C2 (code bug): at a deck whose single (hence active) viewer is
not pinned, the Awesomebar `onOpen` handler leaves the state unchanged —
`loadURI(activeWebViewerCursor)` is a curried partial application that is
never given the URI and whose result is discarded — whereas the intended
navigation `loadURI` sets the viewer's `uri` field to the given URI and
its `isFocused` field to `true`. -/
theorem awesomebarOnOpen_unpinned_bug :
    Browser.awesomebarOnOpen [({} : Browser.WebViewer)] 0 "http://example.com/"
        = [({} : Browser.WebViewer)] ∧
    (Browser.loadURI ({} : Browser.WebViewer) "http://example.com/").uri
        = some "http://example.com/" ∧
    (Browser.loadURI ({} : Browser.WebViewer) "http://example.com/").isFocused = true ∧
    ({} : Browser.WebViewer).uri ≠ some "http://example.com/" :=
  ⟨rfl, rfl, rfl, by decide⟩

/-- Removing the first match shortens the deck by at most one. -/
theorem length_remove_ge (items : List Browser.WebViewer) (p : Browser.WebViewer → Bool) :
    items.length - 1 ≤ (Browser.remove items p).length := by
  unfold Browser.remove
  induction items with
  | nil => simp
  | cons x xs ih =>
    by_cases h : p x
    · simp [List.eraseP_cons, h]
    · simp only [List.eraseP_cons, h, cond_false, List.length_cons]
      omega

/-- Claim C8: `close` leaves at least one viewer in the deck; with more
than one item it removes the viewer matching the predicate, and with
exactly one item it replaces index 0 with a fresh blank viewer whose
`isSelected` and `isActive` are `true`. -/
theorem close_keeps_viewer (p : Browser.WebViewer → Bool) (items : List Browser.WebViewer) :
    (1 ≤ items.length → 1 ≤ (Browser.close p items).length) ∧
    (1 < items.length → Browser.close p items = Browser.remove items p) ∧
    (items.length = 1 → Browser.close p items = [Browser.freshViewer]) ∧
    Browser.freshViewer.isSelected = true ∧
    Browser.freshViewer.isActive = true := by
  refine ⟨?_, ?_, ?_, rfl, rfl⟩
  · intro h
    unfold Browser.close
    by_cases hl : items.length > 1
    · have := length_remove_ge items p
      simp only [hl, if_true]
      omega
    · simp only [hl, if_false]
      cases items with
      | nil => simp at h
      | cons x xs => simp [Browser.setAt0]
  · intro h
    simp [Browser.close, h]
  · intro h
    cases items with
    | nil => simp at h
    | cons x xs =>
      cases xs with
      | nil => simp [Browser.close, Browser.setAt0]
      | cons y ys => simp at h

/-- Witness for C8 at a concrete one-element deck. -/
theorem close_keeps_viewer_witness :
    Browser.close (fun _ => true) [({} : Browser.WebViewer)] = [Browser.freshViewer] :=
  (close_keeps_viewer (fun _ => true) [({} : Browser.WebViewer)]).2.2.1 rfl

/-- Claim C9: `switchTab` returns the deck unchanged when the target item
is absent; in particular `switchTab.toIndex(i)` is the identity whenever
the arranged deck has no item at index `i`. -/
theorem switchTab_absent_id (items : List Browser.WebViewer) (i : Nat) :
    Browser.switchTab items none = items ∧
    ((Browser.arrange items)[i]? = none → Browser.switchTabToIndex i items = items) := by
  refine ⟨rfl, fun h => ?_⟩
  simp [Browser.switchTabToIndex, Browser.switchTab, h]

/-- Witness for C9: index 3 of a one-element deck holds no item. -/
theorem switchTab_absent_id_witness :
    Browser.switchTabToIndex 3 [({} : Browser.WebViewer)] = [({} : Browser.WebViewer)] :=
  (switchTab_absent_id [({} : Browser.WebViewer)] 3).2 rfl

/-- Claim C10: `focus`, `blur`, `select`, `showTabStrip`, `hideTabStrip`
each set exactly their named field (`isFocused` true or false, `selection`
to `{all: true}`, `isActive` true or false), leave every other field
unchanged, and are idempotent. -/
theorem field_actions_spec (x : Browser.InputState) (t : Browser.TabStrip) :
    (Browser.focus x).isFocused = true ∧
    (Browser.focus x).value = x.value ∧
    (Browser.focus x).selection = x.selection ∧
    Browser.focus (Browser.focus x) = Browser.focus x ∧
    (Browser.blur x).isFocused = false ∧
    (Browser.blur x).value = x.value ∧
    (Browser.blur x).selection = x.selection ∧
    Browser.blur (Browser.blur x) = Browser.blur x ∧
    (Browser.select x).selection = some { all := true } ∧
    (Browser.select x).value = x.value ∧
    (Browser.select x).isFocused = x.isFocused ∧
    Browser.select (Browser.select x) = Browser.select x ∧
    (Browser.showTabStrip t).isActive = true ∧
    Browser.showTabStrip (Browser.showTabStrip t) = Browser.showTabStrip t ∧
    (Browser.hideTabStrip t).isActive = false ∧
    Browser.hideTabStrip (Browser.hideTabStrip t) = Browser.hideTabStrip t :=
  ⟨rfl, rfl, rfl, rfl, rfl, rfl, rfl, rfl, rfl, rfl, rfl, rfl, rfl, rfl, rfl, rfl⟩

/-- `modifyAt` preserves the length of the deck. -/
theorem modifyAt_length (items : List Browser.WebViewer) (i : Nat)
    (f : Browser.WebViewer → Browser.WebViewer) :
    (Browser.modifyAt items i f).length = items.length := by
  induction items generalizing i with
  | nil => rfl
  | cons x xs ih =>
    cases i with
    | zero => rfl
    | succ n => simp [Browser.modifyAt, ih]

/-- `modifyAt` applies `f` at its own index. -/
theorem modifyAt_getElem_self (items : List Browser.WebViewer) (i : Nat)
    (f : Browser.WebViewer → Browser.WebViewer) :
    (Browser.modifyAt items i f)[i]? = items[i]?.map f := by
  induction items generalizing i with
  | nil => rfl
  | cons x xs ih =>
    cases i with
    | zero => simp [Browser.modifyAt]
    | succ n => simpa [Browser.modifyAt] using ih n

/-- `modifyAt` leaves every other index unchanged. -/
theorem modifyAt_getElem_ne (items : List Browser.WebViewer) (i j : Nat)
    (f : Browser.WebViewer → Browser.WebViewer) (h : j ≠ i) :
    (Browser.modifyAt items i f)[j]? = items[j]? := by
  induction items generalizing i j with
  | nil => rfl
  | cons x xs ih =>
    cases i with
    | zero =>
      cases j with
      | zero => exact absurd rfl h
      | succ m => simp [Browser.modifyAt]
    | succ n =>
      cases j with
      | zero => simp [Browser.modifyAt]
      | succ m =>
        simp only [Browser.modifyAt, List.getElem?_cons_succ]
        exact ih n m (fun hh => h (by rw [hh]))

/-- `openTab` splits the deck at the first non-pinned item. -/
theorem openTab_eq (uri : String) (deck : List Browser.WebViewer) :
    Browser.openTab uri deck =
      deck.takeWhile (fun v => v.isPinned) ++
        Browser.newTabViewer uri :: deck.dropWhile (fun v => v.isPinned) := by
  unfold Browser.openTab
  induction deck with
  | nil => rfl
  | cons x xs ih =>
    by_cases h : x.isPinned
    · simp [Browser.insertBefore, Browser.isntPinned, h, List.takeWhile_cons,
        List.dropWhile_cons, ih]
    · simp [Browser.insertBefore, Browser.isntPinned, h, List.takeWhile_cons,
        List.dropWhile_cons]

/-- Indices below `firstUnpinnedIdx` hold pinned viewers; that index, when
occupied, holds a non-pinned one. -/
theorem firstUnpinnedIdx_spec (deck : List Browser.WebViewer) :
    (∀ j w, j < Browser.firstUnpinnedIdx deck → deck[j]? = some w → w.isPinned = true) ∧
    (∀ w, deck[Browser.firstUnpinnedIdx deck]? = some w → w.isPinned = false) := by
  induction deck with
  | nil =>
    exact ⟨fun j w hj hw => by simp at hw, fun w hw => by simp at hw⟩
  | cons x xs ih =>
    by_cases h : x.isPinned
    · have hk : Browser.firstUnpinnedIdx (x :: xs) = Browser.firstUnpinnedIdx xs + 1 := by
        simp [Browser.firstUnpinnedIdx, List.takeWhile_cons, h]
      constructor
      · intro j w hj hw
        cases j with
        | zero =>
          simp only [List.getElem?_cons_zero, Option.some.injEq] at hw
          rw [← hw]; exact h
        | succ m =>
          rw [hk] at hj
          exact ih.1 m w (by omega) (by simpa using hw)
      · intro w hw
        rw [hk] at hw
        exact ih.2 w (by simpa using hw)
    · have hk : Browser.firstUnpinnedIdx (x :: xs) = 0 := by
        simp [Browser.firstUnpinnedIdx, List.takeWhile_cons, h]
      constructor
      · intro j w hj hw
        rw [hk] at hj
        omega
      · intro w hw
        rw [hk] at hw
        simp only [List.getElem?_cons_zero, Option.some.injEq] at hw
        rw [← hw]
        simpa using h

/-- Under the pinned-front invariant an index holding a pinned viewer lies
before the first non-pinned index. -/
theorem lt_firstUnpinnedIdx_of_pinned (deck : List Browser.WebViewer) (i : Nat)
    (v : Browser.WebViewer) (hpf : Browser.pinnedFirst deck = true)
    (hv : deck[i]? = some v) (hp : v.isPinned = true) :
    i < Browser.firstUnpinnedIdx deck := by
  induction deck generalizing i with
  | nil => simp at hv
  | cons x xs ih =>
    by_cases h : x.isPinned
    · have hk : Browser.firstUnpinnedIdx (x :: xs) = Browser.firstUnpinnedIdx xs + 1 := by
        simp [Browser.firstUnpinnedIdx, List.takeWhile_cons, h]
      cases i with
      | zero => rw [hk]; omega
      | succ m =>
        rw [hk]
        have hpf' : Browser.pinnedFirst xs = true := by
          unfold Browser.pinnedFirst at hpf ⊢
          simpa [List.dropWhile_cons, h] using hpf
        have := ih m hpf' (by simpa using hv)
        omega
    · exfalso
      have hmem : v ∈ x :: xs := List.getElem?_mem hv
      unfold Browser.pinnedFirst at hpf
      rw [show List.dropWhile (fun v => v.isPinned) (x :: xs) = x :: xs by
            simp [List.dropWhile_cons, h],
          List.all_eq_true] at hpf
      have := hpf v hmem
      simp [hp] at this

/-- Claim C7: for a deck whose active viewer is pinned, under the pinned
viewers coming first in the deck, navigating to a location opens a new
viewer carrying the resolved URI with `isSelected`, `isFocused` and
`isActive` all true, inserts it immediately before the first non-pinned
item, and sets the pinned active viewer's `userInput` to the empty string;
every other position is preserved, the ones from the insertion point on
shifting by one. -/
theorem navigateTo_pinned (lib : Browser.UrlLib) (deck : List Browser.WebViewer)
    (activeIdx : Nat) (location : String) (v : Browser.WebViewer)
    (hpf : Browser.pinnedFirst deck = true)
    (hv : deck[activeIdx]? = some v)
    (hp : v.isPinned = true) :
    (Browser.newTabViewer (Browser.readInputURL lib location)).uri
        = some (Browser.readInputURL lib location) ∧
    (Browser.newTabViewer (Browser.readInputURL lib location)).isSelected = true ∧
    (Browser.newTabViewer (Browser.readInputURL lib location)).isFocused = true ∧
    (Browser.newTabViewer (Browser.readInputURL lib location)).isActive = true ∧
    (∀ j w, j < Browser.firstUnpinnedIdx deck → deck[j]? = some w → w.isPinned = true) ∧
    (∀ w, deck[Browser.firstUnpinnedIdx deck]? = some w → w.isPinned = false) ∧
    (Browser.navigateTo lib deck activeIdx location).length = deck.length + 1 ∧
    (Browser.navigateTo lib deck activeIdx location)[Browser.firstUnpinnedIdx deck]?
        = some (Browser.newTabViewer (Browser.readInputURL lib location)) ∧
    (Browser.navigateTo lib deck activeIdx location)[activeIdx]?
        = some { v with userInput := "" } ∧
    (∀ j, j < Browser.firstUnpinnedIdx deck → j ≠ activeIdx →
      (Browser.navigateTo lib deck activeIdx location)[j]? = deck[j]?) ∧
    (∀ j, Browser.firstUnpinnedIdx deck ≤ j →
      (Browser.navigateTo lib deck activeIdx location)[j + 1]? = deck[j]?) := by
  have hlt : activeIdx < Browser.firstUnpinnedIdx deck :=
    lt_firstUnpinnedIdx_of_pinned deck activeIdx v hpf hv hp
  have hk : Browser.firstUnpinnedIdx deck
      = (deck.takeWhile (fun v => v.isPinned)).length := rfl
  have hTD : deck.takeWhile (fun v => v.isPinned) ++ deck.dropWhile (fun v => v.isPinned)
      = deck := List.takeWhile_append_dropWhile _ _
  have hnav : Browser.navigateTo lib deck activeIdx location =
      Browser.modifyAt (Browser.openTab (Browser.readInputURL lib location) deck)
        activeIdx (fun w => { w with userInput := "" }) := by
    simp [Browser.navigateTo, hv, Browser.isPinnedV, hp]
  refine ⟨rfl, rfl, rfl, rfl, (firstUnpinnedIdx_spec deck).1, (firstUnpinnedIdx_spec deck).2,
    ?_, ?_, ?_, ?_, ?_⟩
  · rw [hnav, modifyAt_length, openTab_eq, List.length_append, List.length_cons]
    conv_rhs => rw [← hTD]
    rw [List.length_append]
    omega
  · rw [hnav, modifyAt_getElem_ne _ _ _ _ (by omega), openTab_eq, hk,
        List.getElem?_append_right (le_refl _), Nat.sub_self, List.getElem?_cons_zero]
  · have hlt' : activeIdx < (deck.takeWhile (fun v => v.isPinned)).length := hk ▸ hlt
    have hT : (deck.takeWhile (fun v => v.isPinned))[activeIdx]? = some v := by
      have h0 := hv
      rw [← hTD, List.getElem?_append_left hlt'] at h0
      exact h0
    rw [hnav, modifyAt_getElem_self, openTab_eq, List.getElem?_append_left hlt', hT]
    rfl
  · intro j hj hne
    have hj' : j < (deck.takeWhile (fun v => v.isPinned)).length := hk ▸ hj
    rw [hnav, modifyAt_getElem_ne _ _ _ _ hne, openTab_eq, List.getElem?_append_left hj']
    conv_rhs => rw [← hTD]
    rw [List.getElem?_append_left hj']
  · intro j hj
    have hj' : (deck.takeWhile (fun v => v.isPinned)).length ≤ j := hk ▸ hj
    have harith : j + 1 - (deck.takeWhile (fun v => v.isPinned)).length
        = (j - (deck.takeWhile (fun v => v.isPinned)).length) + 1 := by omega
    rw [hnav, modifyAt_getElem_ne _ _ _ _ (by omega), openTab_eq,
        List.getElem?_append_right (by omega), harith, List.getElem?_cons_succ]
    conv_rhs => rw [← hTD]
    rw [List.getElem?_append_right hj']

/-- Witness for C7: one pinned active dashboard viewer at index 0; after
navigating, its `userInput` is cleared in place. -/
theorem navigateTo_pinned_witness :
    (Browser.navigateTo ⟨fun _ => false, fun _ => true, fun s => s⟩
        [⟨"dash", none, true, true, true, false, "typed"⟩] 0 "http://a/")[0]?
      = some ⟨"dash", none, true, true, true, false, ""⟩ :=
  (navigateTo_pinned ⟨fun _ => false, fun _ => true, fun s => s⟩
      [⟨"dash", none, true, true, true, false, "typed"⟩] 0 "http://a/"
      ⟨"dash", none, true, true, true, false, "typed"⟩
      (by decide) (by decide) rfl).2.2.2.2.2.2.2.2.1

/-- Claim C7 counterexample: on a deck where a non-pinned viewer precedes
the pinned active one — `[A (non-pinned, userInput "ay"), B (pinned,
active, userInput "typed")]`, active index 1 — the new viewer is inserted
at index 0, the index cursor now denotes `A`, and the `userInput` write
clears `A` instead of the pinned viewer: `B` keeps `"typed"`, so the claim
as stated fails at this deck. -/
theorem navigateTo_pinned_counterexample :
    Browser.navigateTo ⟨fun _ => false, fun _ => true, fun s => s⟩
        [⟨"A", none, false, false, false, false, "ay"⟩,
         ⟨"B", none, true, true, true, false, "typed"⟩] 1 "http://a/"
      = [Browser.newTabViewer "http://a/",
         ⟨"A", none, false, false, false, false, ""⟩,
         ⟨"B", none, true, true, true, false, "typed"⟩] ∧
    (Browser.navigateTo ⟨fun _ => false, fun _ => true, fun s => s⟩
        [⟨"A", none, false, false, false, false, "ay"⟩,
         ⟨"B", none, true, true, true, false, "typed"⟩] 1 "http://a/")[2]?
      = some ⟨"B", none, true, true, true, false, "typed"⟩ ∧
    "typed" ≠ "" :=
  ⟨rfl, rfl, by decide⟩
